import Mathlib

/-!
Verification of the Compliance & Safety Record Engine of the creatoros
repository.

The repository's source under version control is the React frontend
(Dashboard/Consents/Tasks/Incidents/Personas/Talents/TalentDetail pages).
The lifecycle owners described by the specification (Consent Ledger,
Incident Tracker, Task Board, Onboarding Progress Engine, Risk &
Readiness Scorer) live behind the REST boundary and are not part of the
checked-in sources; where a claim depends on them they are modelled
faithfully from the specification text, and every definition taken from
a checked-in source file is a direct transcription of that file.
-/

namespace CreatorOS

/-! ### Error taxonomy (spec section 7) -/

/-- Error taxonomy of the engine: ValidationError, NotFoundError,
ConflictError, StorageError. -/
inductive OpError
  | Validation
  | NotFound
  | Conflict
  | Storage
deriving DecidableEq, Repr

/-! ### Consent Ledger -/

/-- Persisted consent status: `active | revoked | expired`. -/
inductive ConsentStatus
  | Active
  | Revoked
  | Expired
deriving DecidableEq, Repr

/-- String form of a consent status as it travels over the wire and is
compared by the frontend (`'active'`, `'revoked'`, `'expired'`). -/
def consentStatusStr : ConsentStatus → String
  | ConsentStatus.Active => "active"
  | ConsentStatus.Revoked => "revoked"
  | ConsentStatus.Expired => "expired"

/-- A consent record (spec section 3): one persona, one act type,
optional partner ids, a distribution scope, revocation rules, an
optional expiry date and a persisted status.  Times are modelled as
natural-number epoch instants. -/
structure Consent where
  personaId : String
  actType : String
  partnerIds : List String
  scope : String
  revocationRules : String
  expiryDate : Option Nat
  status : ConsentStatus
deriving DecidableEq, Repr

/-- Whether the consent's expiry is set and has passed at instant
`now` (spec: "`expiry` is set and `now ≥ expiry`"). -/
def expiryPassed (c : Consent) (now : Nat) : Bool :=
  match c.expiryDate with
  | some e => decide (e ≤ now)
  | none => false

/-- Modelled from the spec: `effectiveStatus(consent, now)` of the
Consent Ledger, which is not part of the checked-in frontend sources.
Pure function: if the stored status is `revoked`, return `revoked`;
else if `expiry` is set and `now ≥ expiry`, return `expired`; else
return `active`. -/
def effectiveStatus (c : Consent) (now : Nat) : ConsentStatus :=
  if c.status = ConsentStatus.Revoked then ConsentStatus.Revoked
  else if expiryPassed c now then ConsentStatus.Expired
  else ConsentStatus.Active

/-- The consent with its persisted status set to `revoked`. -/
def markRevoked (c : Consent) : Consent :=
  { c with status := ConsentStatus.Revoked }

/-- Modelled from the spec: `revoke(consentId, actor)` of the Consent
Ledger, which is not part of the checked-in frontend sources.  Fails
with `ConflictError` if the current (effective) status is not `active`;
on success the status becomes `revoked` permanently.  The id lookup
(`NotFoundError`) is resolved before this point, so the operation is
modelled on the consent record itself. -/
def revoke (c : Consent) (now : Nat) : Except OpError Consent :=
  if effectiveStatus c now = ConsentStatus.Active then
    Except.ok (markRevoked c)
  else
    Except.error OpError.Conflict

/-- A consent as served to the frontend over the read boundary. -/
structure ServedConsent where
  actType : String
  expiryDate : Option Nat
  status : String
deriving DecidableEq, Repr

/-- Modelled from the spec: the read path of the Consent Ledger, which
is not part of the checked-in frontend sources.  Every read applies
`effectiveStatus` rather than trusting a stale persisted value, so the
served `status` field carries the effective status at serve time. -/
def serveConsent (c : Consent) (now : Nat) : ServedConsent :=
  { actType := c.actType
    expiryDate := c.expiryDate
    status := consentStatusStr (effectiveStatus c now) }

/-- From src/frontend/src/pages/Dashboard.js (Consents page,
`filteredConsents`): `filterStatus === 'all' ? consents :
consents.filter(c => c.status === filterStatus)`. -/
def filteredConsents (filterStatus : String) (consents : List ServedConsent) :
    List ServedConsent :=
  if filterStatus = "all" then consents
  else consents.filter (fun c => c.status == filterStatus)

/-- From src/frontend/src/pages/Dashboard.js (Consents page,
`getStatusBadge`): badge class per status string, defaulting to the
`active` style. -/
def getStatusBadgeClass (status : String) : String :=
  if status = "active" then "badge-success"
  else if status = "revoked" then "badge-danger"
  else if status = "expired" then "badge-warning"
  else "badge-success"

/-! ### Incident Tracker -/

/-- Incident status: `open | investigating | resolved | closed`. -/
inductive IncidentStatus
  | Open
  | Investigating
  | Resolved
  | Closed
deriving DecidableEq, Repr

/-- String form of an incident status as seen by the frontend. -/
def incidentStatusStr : IncidentStatus → String
  | IncidentStatus.Open => "open"
  | IncidentStatus.Investigating => "investigating"
  | IncidentStatus.Resolved => "resolved"
  | IncidentStatus.Closed => "closed"

/-- An incident record (spec section 3): type, severity, description,
optional talent/persona links, status, resolution notes and
timestamps. -/
structure Incident where
  incidentType : String
  severity : String
  description : String
  talentId : Option String
  personaId : Option String
  status : IncidentStatus
  resolutionNotes : String
  createdAt : Nat
  resolvedAt : Option Nat
deriving DecidableEq, Repr

/-- Modelled from the spec: `resolve(incidentId, resolutionNotes,
actor)` of the Incident Tracker, which is not part of the checked-in
frontend sources.  Fails with `ConflictError` if status is already
`resolved` or `closed`; fails with `ValidationError` if
`resolutionNotes` is empty; otherwise sets status `resolved` and stamps
the resolution time. -/
def resolve (i : Incident) (notes : String) (now : Nat) :
    Except OpError Incident :=
  if i.status = IncidentStatus.Resolved ∨ i.status = IncidentStatus.Closed then
    Except.error OpError.Conflict
  else if notes = "" then
    Except.error OpError.Validation
  else
    Except.ok { i with
      status := IncidentStatus.Resolved
      resolutionNotes := notes
      resolvedAt := some now }

/-- From src/unnamed/part_003 (Incidents page): the Resolve button is
rendered only when `incident.status === 'open' || incident.status ===
'investigating'`. -/
def resolveButtonShown (status : String) : Bool :=
  status == "open" || status == "investigating"

/-! ### Task Board -/

/-- The four task statuses of the closed enumerated set, as the strings
that appear in the source. -/
def validTaskStatuses : List String :=
  ["pending", "in_progress", "completed", "blocked"]

/-- A task record (spec section 3): title, description, optional
persona link, task type, priority, status and optional deadline. -/
structure Task where
  title : String
  description : String
  personaId : Option String
  taskType : String
  priority : String
  status : String
  deadline : Option Nat
deriving DecidableEq, Repr

/-- Modelled from the spec: `setStatus(taskId, newStatus, actor)` of
the Task Board, which is not part of the checked-in frontend sources.
Fails with `ValidationError` if `newStatus` is not one of the four
enumerated values; all transitions are permitted except that
transitioning away from `completed` fails with `ConflictError`. -/
def setStatus (t : Task) (newStatus : String) : Except OpError Task :=
  if validTaskStatuses.contains newStatus then
    if t.status = "completed" ∧ newStatus ≠ "completed" then
      Except.error OpError.Conflict
    else
      Except.ok { t with status := newStatus }
  else
    Except.error OpError.Validation

/-- From src/frontend/src/pages/Dashboard.js (Tasks page, `TaskCard`):
the status-transition buttons offered for a task, by its status.
`pending` offers Start (`in_progress`) and Block (`blocked`),
`in_progress` offers Complete (`completed`) and Block (`blocked`), and
no transition button is rendered for `completed` or `blocked`. -/
def taskCardActions (status : String) : List String :=
  (if status == "pending" then ["in_progress"] else []) ++
  (if status == "in_progress" then ["completed"] else []) ++
  (if status == "pending" || status == "in_progress" then ["blocked"] else [])

/-- The kanban grouping of the Tasks page: one list per status key. -/
structure GroupedTasks where
  pending : List Task
  in_progress : List Task
  completed : List Task
  blocked : List Task
deriving DecidableEq, Repr

/-- From src/frontend/src/pages/Dashboard.js (Tasks page,
`groupedTasks`): four filters of the input list, one per status. -/
def groupedTasks (tasks : List Task) : GroupedTasks :=
  { pending := tasks.filter (fun t => t.status == "pending")
    in_progress := tasks.filter (fun t => t.status == "in_progress")
    completed := tasks.filter (fun t => t.status == "completed")
    blocked := tasks.filter (fun t => t.status == "blocked") }

/-! ### Onboarding Progress Engine -/

/-- One onboarding step: identifier, display name, completion flag and
completion timestamp. -/
structure OnboardingStep where
  stepId : String
  name : String
  completed : Bool
  completedAt : Option Nat
deriving DecidableEq, Repr

/-- Modelled from the spec: the fixed ordered step sequence per talent
of the Onboarding Progress Engine (identity verification, contract
signing, persona setup, safety briefing, platform access), which is not
part of the checked-in frontend sources. -/
def fixedStepIds : List (String × String) :=
  [("identity_verification", "Identity Verification"),
   ("contract_signing", "Contract Signing"),
   ("persona_setup", "Persona Setup"),
   ("safety_briefing", "Safety Briefing"),
   ("platform_access", "Platform Access")]

/-- Modelled from the spec: `initialize(talentId)` of the Onboarding
Progress Engine, which is not part of the checked-in frontend sources;
creates the fixed ordered step set, all `completed = false`. -/
def initRecord : List OnboardingStep :=
  fixedStepIds.map (fun p =>
    { stepId := p.1, name := p.2, completed := false, completedAt := none })

/-- Number of completed steps of a record. -/
def completedCount (steps : List OnboardingStep) : Nat :=
  (steps.filter (fun s => s.completed)).length

/-- Whether every step of the record is completed. -/
def allComplete (steps : List OnboardingStep) : Bool :=
  steps.all (fun s => s.completed)

/-- Modelled from the spec: `progress(record)` of the Onboarding
Progress Engine, which is not part of the checked-in frontend sources:
`round(100 × completedCount / totalSteps)`, here as the equivalent
natural-number formula `(200 c + t) / (2 t)` (the round link is proved
below). -/
def progressPct (steps : List OnboardingStep) : Nat :=
  (200 * completedCount steps + steps.length) / (2 * steps.length)

/-- The per-step update applied by `completeStep`: the matching step is
marked completed and timestamped; every other step is unchanged. -/
def stepUpdate (stepId : String) (now : Nat) (s : OnboardingStep) :
    OnboardingStep :=
  if s.stepId == stepId then
    { s with completed := true, completedAt := some now }
  else s

/-- Modelled from the spec: `completeStep(talentId, stepId, actor)` of
the Onboarding Progress Engine, which is not part of the checked-in
frontend sources.  Fails with `NotFoundError` if the step is unknown
and with `ConflictError` if the step is already completed; otherwise
sets `completed = true` and stamps the time. -/
def completeStep (steps : List OnboardingStep) (stepId : String) (now : Nat) :
    Except OpError (List OnboardingStep) :=
  match steps.find? (fun s => s.stepId == stepId) with
  | none => Except.error OpError.NotFound
  | some s =>
      if s.completed then Except.error OpError.Conflict
      else Except.ok (steps.map (stepUpdate stepId now))

/-- Modelled from the spec: the transaction wrapping `completeStep`;
when the step write succeeds, the owning talent's
`onboarding_complete` flag is set to whether every step is now complete,
in the same transaction.  Returns the updated record and the flag. -/
def completeStepTx (steps : List OnboardingStep) (stepId : String)
    (now : Nat) : Except OpError (List OnboardingStep × Bool) :=
  match completeStep steps stepId now with
  | Except.error e => Except.error e
  | Except.ok steps2 => Except.ok (steps2, allComplete steps2)

/-! ### Risk & Readiness Scorer displays -/

/-- Risk tiers of the Scorer: low, medium, critical. -/
inductive RiskTier
  | Low
  | Medium
  | Critical
deriving DecidableEq, Repr

/-- Definition following the spec's words, for comparison with the
source functions: `personaRiskTier(riskRating)` with tiers low(<50) /
medium(50–79) / critical(≥80), thresholds 50 and 80 with inclusive
lower bounds. -/
def personaRiskTier (riskRating : Nat) : RiskTier :=
  if 80 ≤ riskRating then RiskTier.Critical
  else if 50 ≤ riskRating then RiskTier.Medium
  else RiskTier.Low

/-- From src/unnamed/part_002 (Personas page, `getRiskBadge`): rating
≥ 80 is a danger badge labelled Critical, rating ≥ 50 a warning badge
labelled Medium, anything else a success badge labelled Low. -/
def getRiskBadgePersonas (rating : Nat) : String × String :=
  if rating ≥ 80 then ("badge-danger", "Critical")
  else if rating ≥ 50 then ("badge-warning", "Medium")
  else ("badge-success", "Low")

/-- From src/frontend/src/pages/TalentDetail.js (`getRiskBadge`):
rating ≥ 80 is a danger badge "Critical Risk", rating ≥ 50 a warning
badge "Medium Risk", anything else a success badge "Low Risk". -/
def getRiskBadgeTalent (rating : Nat) : String × String :=
  if rating ≥ 80 then ("badge-danger", "Critical Risk")
  else if rating ≥ 50 then ("badge-warning", "Medium Risk")
  else ("badge-success", "Low Risk")

/-- The badge class each risk tier is rendered with, at both sites. -/
def riskTierBadgeClass : RiskTier → String
  | RiskTier.Critical => "badge-danger"
  | RiskTier.Medium => "badge-warning"
  | RiskTier.Low => "badge-success"

/-- A persona as listed on the Personas page; only the fields the
claims touch are kept, with the risk rating 0–100. -/
structure Persona where
  personaName : String
  brandingTone : String
  riskRating : Nat
  status : String
deriving DecidableEq, Repr

/-- From src/unnamed/part_002 (Personas page, Risk Summary cards): the
Low Risk count is `personas.filter(p => p.risk_rating < 50).length`. -/
def lowRiskCount (personas : List Persona) : Nat :=
  (personas.filter (fun p => p.riskRating < 50)).length

/-- From src/unnamed/part_002 (Personas page, Risk Summary cards): the
Medium Risk count is `personas.filter(p => p.risk_rating >= 50 &&
p.risk_rating < 80).length`. -/
def mediumRiskCount (personas : List Persona) : Nat :=
  (personas.filter (fun p => 50 ≤ p.riskRating ∧ p.riskRating < 80)).length

/-- From src/unnamed/part_002 (Personas page, Risk Summary cards): the
Critical Risk count is `personas.filter(p => p.risk_rating >=
80).length`. -/
def criticalRiskCount (personas : List Persona) : Nat :=
  (personas.filter (fun p => 80 ≤ p.riskRating)).length

/-- From src/unnamed/part_001 (Talents page, `getReadinessColor`):
score ≥ 80 is emerald, score ≥ 50 amber, anything else red. -/
def getReadinessColor (score : Nat) : String :=
  if score ≥ 80 then "text-emerald-400"
  else if score ≥ 50 then "text-amber-400"
  else "text-red-400"

/-! ### Helper lemmas -/

theorem riskCounts_sum (ps : List Persona) :
    lowRiskCount ps + mediumRiskCount ps + criticalRiskCount ps = ps.length := by
  induction ps with
  | nil => rfl
  | cons p t ih =>
      unfold lowRiskCount mediumRiskCount criticalRiskCount at ih ⊢
      simp only [List.filter_cons, decide_eq_true_eq]
      by_cases h1 : p.riskRating < 50
      · have h2 : ¬ (50 ≤ p.riskRating ∧ p.riskRating < 80) := by omega
        have h3 : ¬ 80 ≤ p.riskRating := by omega
        simp only [h1, h2, h3, if_true, if_false, List.length_cons]
        omega
      · by_cases h2 : 80 ≤ p.riskRating
        · have h3 : ¬ (50 ≤ p.riskRating ∧ p.riskRating < 80) := by omega
          simp only [h1, h2, h3, if_true, if_false, List.length_cons]
          omega
        · have h3 : 50 ≤ p.riskRating ∧ p.riskRating < 80 := by omega
          simp only [h1, h2, h3, and_self, if_true, if_false, List.length_cons]
          omega

/-! ### Claim theorems -/

/-- C8: for every risk rating in 0–100, `personaRiskTier` maps the
rating to low below 50, to medium between 50 and 79, and to critical at
80 and above (inclusive lower bounds), and both risk-classification
sites of the source (the Personas page badge and the TalentDetail page
badge) apply exactly this tiering. -/
theorem persona_risk_tier_thresholds (r : Nat) (hr : r ≤ 100) :
    (personaRiskTier r = RiskTier.Low ↔ r < 50)
    ∧ (personaRiskTier r = RiskTier.Medium ↔ 50 ≤ r ∧ r ≤ 79)
    ∧ (personaRiskTier r = RiskTier.Critical ↔ 80 ≤ r)
    ∧ (getRiskBadgePersonas r).1 = riskTierBadgeClass (personaRiskTier r)
    ∧ (getRiskBadgeTalent r).1 = riskTierBadgeClass (personaRiskTier r)
    ∧ (getRiskBadgePersonas r).1 = (getRiskBadgeTalent r).1 := by
  unfold personaRiskTier getRiskBadgePersonas getRiskBadgeTalent riskTierBadgeClass
  split_ifs <;> simp_all <;> omega

/-- Witness for C8 at the concrete ratings 49, 50 and 80. -/
theorem persona_risk_tier_thresholds_witness :
    personaRiskTier 49 = RiskTier.Low
    ∧ personaRiskTier 50 = RiskTier.Medium
    ∧ personaRiskTier 80 = RiskTier.Critical :=
  ⟨(persona_risk_tier_thresholds 49 (by decide)).1.mpr (by decide),
   (persona_risk_tier_thresholds 50 (by decide)).2.1.mpr (by decide),
   (persona_risk_tier_thresholds 80 (by decide)).2.2.1.mpr (by decide)⟩

/-- C9: the three Risk Summary cards of the Personas page partition the
persona list: the low (< 50), medium (50–79) and critical (≥ 80) counts
sum to the total number of personas, and each persona satisfies exactly
one of the three predicates. -/
theorem persona_risk_summary_partition (ps : List Persona) (p : Persona) :
    lowRiskCount ps + mediumRiskCount ps + criticalRiskCount ps = ps.length
    ∧ ((if p.riskRating < 50 then 1 else 0)
        + (if 50 ≤ p.riskRating ∧ p.riskRating < 80 then 1 else 0)
        + (if 80 ≤ p.riskRating then 1 else 0)) = 1 := by
  refine ⟨riskCounts_sum ps, ?_⟩
  split_ifs <;> omega

/-- C10: the Talents registry colors a readiness score with the emerald
class at 80 and above, the amber class between 50 and 79, and the red
class below 50 — the same 50/80 thresholds as the persona risk tiers,
tier by tier. -/
theorem readiness_color_thresholds (score : Nat) :
    (getReadinessColor score = "text-emerald-400" ↔ 80 ≤ score)
    ∧ (getReadinessColor score = "text-amber-400" ↔ 50 ≤ score ∧ score < 80)
    ∧ (getReadinessColor score = "text-red-400" ↔ score < 50)
    ∧ (getReadinessColor score = "text-emerald-400"
        ↔ personaRiskTier score = RiskTier.Critical)
    ∧ (getReadinessColor score = "text-amber-400"
        ↔ personaRiskTier score = RiskTier.Medium)
    ∧ (getReadinessColor score = "text-red-400"
        ↔ personaRiskTier score = RiskTier.Low) := by
  unfold getReadinessColor personaRiskTier
  split_ifs <;> simp_all <;> omega

/-- A concrete consent used by sample evaluations: stored status
`active` with expiry at instant 10. -/
def sampleConsent : Consent :=
  { personaId := "p1"
    actType := "solo"
    partnerIds := []
    scope := "platform_only"
    revocationRules := "on request"
    expiryDate := some 10
    status := ConsentStatus.Active }

/-- C2: revoke fails with `ConflictError` exactly when the consent's
current (effective) status is not `active`; in particular a consent
whose expiry date has passed cannot be revoked even while its stored
status is still `active`, a revoked consent cannot be revoked again,
and on success the status becomes `revoked` permanently (the effective
status is `revoked` at every later instant). -/
theorem consent_revoke_guard (c : Consent) (now t : Nat) :
    (revoke c now = Except.error OpError.Conflict
      ↔ effectiveStatus c now ≠ ConsentStatus.Active)
    ∧ (effectiveStatus c now = ConsentStatus.Active
        → revoke c now = Except.ok (markRevoked c))
    ∧ effectiveStatus (markRevoked c) t = ConsentStatus.Revoked
    ∧ revoke (markRevoked c) t = Except.error OpError.Conflict
    ∧ (c.status = ConsentStatus.Active → expiryPassed c now = true
        → revoke c now = Except.error OpError.Conflict) := by
  unfold revoke effectiveStatus markRevoked
  by_cases h : c.status = ConsentStatus.Revoked
  · simp [h]
  · by_cases he : expiryPassed c now = true <;>
      simp_all [expiryPassed]

/-- Witness for C2: revoking the sample consent after its expiry fails
with a conflict, revoking it before the expiry succeeds, and revoking
the revoked result fails with a conflict. -/
theorem consent_revoke_guard_witness :
    revoke sampleConsent 20 = Except.error OpError.Conflict
    ∧ revoke sampleConsent 5 = Except.ok (markRevoked sampleConsent)
    ∧ revoke (markRevoked sampleConsent) 5 = Except.error OpError.Conflict :=
  ⟨(consent_revoke_guard sampleConsent 20 0).2.2.2.2 rfl (by decide),
   (consent_revoke_guard sampleConsent 5 0).2.1 (by decide),
   (consent_revoke_guard sampleConsent 5 5).2.2.2.1⟩

/-- A concrete open critical incident used by sample evaluations. -/
def sampleIncident : Incident :=
  { incidentType := "boundary_violation"
    severity := "critical"
    description := "reported issue"
    talentId := none
    personaId := none
    status := IncidentStatus.Open
    resolutionNotes := ""
    createdAt := 1
    resolvedAt := none }

/-- C3: resolve succeeds if and only if the incident's status is `open`
or `investigating` and the resolution notes are non-empty; an already
`resolved` or `closed` incident fails with `ConflictError`, empty notes
fail with `ValidationError`, success stamps the resolution time, and
the Resolve button of the Incidents page is shown for exactly the
resolvable statuses. -/
theorem incident_resolve_guard (i : Incident) (notes : String) (now : Nat) :
    ((resolve i notes now).isOk = true
      ↔ ((i.status = IncidentStatus.Open ∨ i.status = IncidentStatus.Investigating)
          ∧ notes ≠ ""))
    ∧ ((i.status = IncidentStatus.Resolved ∨ i.status = IncidentStatus.Closed)
        → resolve i notes now = Except.error OpError.Conflict)
    ∧ ((i.status = IncidentStatus.Open ∨ i.status = IncidentStatus.Investigating)
        → notes = "" → resolve i notes now = Except.error OpError.Validation)
    ∧ ((i.status = IncidentStatus.Open ∨ i.status = IncidentStatus.Investigating)
        → notes ≠ ""
        → resolve i notes now = Except.ok { i with
            status := IncidentStatus.Resolved
            resolutionNotes := notes
            resolvedAt := some now })
    ∧ (resolveButtonShown (incidentStatusStr i.status) = true
        ↔ (i.status = IncidentStatus.Open ∨ i.status = IncidentStatus.Investigating)) := by
  by_cases hn : notes = "" <;>
    cases hs : i.status <;>
      simp_all [resolve, resolveButtonShown, incidentStatusStr, Except.isOk,
        Except.toBool]

/-- Witness for C3: resolving the sample open incident with empty notes
fails validation, with the notes "patched" it succeeds, and a
resolved incident cannot be resolved again. -/
theorem incident_resolve_guard_witness :
    resolve sampleIncident "" 7 = Except.error OpError.Validation
    ∧ resolve sampleIncident "patched" 7 = Except.ok { sampleIncident with
        status := IncidentStatus.Resolved
        resolutionNotes := "patched"
        resolvedAt := some 7 }
    ∧ resolve { sampleIncident with status := IncidentStatus.Resolved } "x" 9
        = Except.error OpError.Conflict :=
  ⟨(incident_resolve_guard sampleIncident "" 7).2.2.1 (Or.inl rfl) rfl,
   (incident_resolve_guard sampleIncident "patched" 7).2.2.2.1 (Or.inl rfl)
     (by decide),
   (incident_resolve_guard { sampleIncident with
       status := IncidentStatus.Resolved } "x" 9).2.1 (Or.inl rfl)⟩

/-- A concrete completed task used by sample evaluations. -/
def sampleTask : Task :=
  { title := "appeal"
    description := ""
    personaId := none
    taskType := "platform_appeal"
    priority := "high"
    status := "completed"
    deadline := none }

/-- C4: `setStatus` permits every transition among the four enumerated
statuses without guard, except that any transition away from
`completed` fails with `ConflictError`; a status outside the closed set
fails with `ValidationError`, and the Tasks page renders no transition
button on a completed task. -/
theorem task_set_status_terminal_completed (t : Task) (newStatus : String) :
    (t.status = "completed" → validTaskStatuses.contains newStatus = true
      → newStatus ≠ "completed"
      → setStatus t newStatus = Except.error OpError.Conflict)
    ∧ (t.status ≠ "completed" → validTaskStatuses.contains newStatus = true
        → setStatus t newStatus = Except.ok { t with status := newStatus })
    ∧ (validTaskStatuses.contains newStatus = false
        → setStatus t newStatus = Except.error OpError.Validation)
    ∧ taskCardActions "completed" = [] := by
  refine ⟨?_, ?_, ?_, rfl⟩
  · intro h1 h2 h3
    simp_all [setStatus]
  · intro h1 h2
    simp_all [setStatus]
  · intro h1
    simp_all [setStatus]

/-- Witness for C4, the spec scenario: blocking the sample completed
task fails with a conflict, while starting a pending task succeeds. -/
theorem task_set_status_terminal_completed_witness :
    setStatus sampleTask "blocked" = Except.error OpError.Conflict
    ∧ setStatus { sampleTask with status := "pending" } "in_progress"
        = Except.ok { sampleTask with status := "in_progress" } :=
  ⟨(task_set_status_terminal_completed sampleTask "blocked").1 rfl (by decide)
     (by decide),
   (task_set_status_terminal_completed { sampleTask with status := "pending" }
       "in_progress").2.1 (by decide) (by decide)⟩

/-- The badge class each effective consent status is rendered with on
the Consents page. -/
def consentBadgeClass : ConsentStatus → String
  | ConsentStatus.Active => "badge-success"
  | ConsentStatus.Revoked => "badge-danger"
  | ConsentStatus.Expired => "badge-warning"

theorem consentStatusStr_beq (a b : ConsentStatus) :
    (consentStatusStr a == consentStatusStr b) = decide (a = b) := by
  cases a <;> cases b <;> decide

/-- C1: `effectiveStatus` is the pure function returning `revoked`
when the stored status is `revoked`, `expired` when an expiry is set
and has passed, and `active` otherwise; the consent read path serves
exactly this effective status, the status badge of the Consents page
renders the served (effective) status, and the list filter of the
Consents page selects exactly the consents whose effective status
matches the chosen filter. -/
theorem consent_effective_status_read_paths (c : Consent) (now : Nat)
    (cs : List Consent) (s : ConsentStatus) :
    (effectiveStatus c now = ConsentStatus.Revoked
      ↔ c.status = ConsentStatus.Revoked)
    ∧ (effectiveStatus c now = ConsentStatus.Expired
        ↔ (c.status ≠ ConsentStatus.Revoked ∧ expiryPassed c now = true))
    ∧ (effectiveStatus c now = ConsentStatus.Active
        ↔ (c.status ≠ ConsentStatus.Revoked ∧ expiryPassed c now = false))
    ∧ (serveConsent c now).status = consentStatusStr (effectiveStatus c now)
    ∧ getStatusBadgeClass (consentStatusStr (effectiveStatus c now))
        = consentBadgeClass (effectiveStatus c now)
    ∧ filteredConsents (consentStatusStr s) (cs.map (fun x => serveConsent x now))
        = (cs.filter (fun x => effectiveStatus x now = s)).map
            (fun x => serveConsent x now) := by
  refine ⟨?_, ?_, ?_, rfl, ?_, ?_⟩
  · unfold effectiveStatus
    split_ifs <;> simp_all
  · unfold effectiveStatus
    split_ifs <;> simp_all
  · unfold effectiveStatus
    split_ifs <;> simp_all
  · cases effectiveStatus c now <;> decide
  · have hne : consentStatusStr s ≠ "all" := by cases s <;> decide
    unfold filteredConsents
    rw [if_neg hne, List.filter_map]
    congr 1
    apply List.filter_congr
    intro x _
    show ((serveConsent x now).status == consentStatusStr s)
      = decide (effectiveStatus x now = s)
    simp [serveConsent, consentStatusStr_beq]

/-- Witness for C1: the sample consent is stored `active` with expiry
10, so at instant 20 the served status reads expired and an
active-filtered listing of it is empty. -/
theorem consent_effective_status_read_paths_witness :
    (serveConsent sampleConsent 20).status
        = consentStatusStr (effectiveStatus sampleConsent 20)
    ∧ filteredConsents (consentStatusStr ConsentStatus.Active)
        ([sampleConsent].map (fun x => serveConsent x 20))
        = ([sampleConsent].filter
            (fun x => effectiveStatus x 20 = ConsentStatus.Active)).map
            (fun x => serveConsent x 20) :=
  ⟨(consent_effective_status_read_paths sampleConsent 20 [] ConsentStatus.Active).2.2.2.1,
   (consent_effective_status_read_paths sampleConsent 20 [sampleConsent]
     ConsentStatus.Active).2.2.2.2.2⟩

theorem groupedTasks_lengths (tasks : List Task)
    (hv : ∀ u ∈ tasks, u.status ∈ validTaskStatuses) :
    (groupedTasks tasks).pending.length + (groupedTasks tasks).in_progress.length
      + (groupedTasks tasks).completed.length + (groupedTasks tasks).blocked.length
      = tasks.length := by
  induction tasks with
  | nil => rfl
  | cons t ts ih =>
      have hts : ∀ u ∈ ts, u.status ∈ validTaskStatuses :=
        fun u hu => hv u (List.mem_cons_of_mem _ hu)
      have ht : t.status ∈ validTaskStatuses := hv t (List.mem_cons_self _ _)
      have ihts := ih hts
      unfold groupedTasks at ihts ⊢
      dsimp only at ihts ⊢
      simp only [validTaskStatuses, List.mem_cons, List.not_mem_nil, or_false] at ht
      simp only [List.filter_cons]
      rcases ht with h | h | h | h <;>
        simp only [h] <;> simp <;> omega

/-- C5: the kanban grouping of the Tasks page is a pure partition:
given that every task's status is one of the four enumerated values,
the four group lengths sum to the number of tasks, a task belongs to a
group exactly when the group is keyed by its own status, and each group
is a sublist of the input (so it preserves the input order). -/
theorem tasks_group_by_status_partition (tasks : List Task) (t : Task)
    (ht : t ∈ tasks) (hv : ∀ u ∈ tasks, u.status ∈ validTaskStatuses) :
    ((groupedTasks tasks).pending.length + (groupedTasks tasks).in_progress.length
      + (groupedTasks tasks).completed.length + (groupedTasks tasks).blocked.length
      = tasks.length)
    ∧ (t ∈ (groupedTasks tasks).pending ↔ t.status = "pending")
    ∧ (t ∈ (groupedTasks tasks).in_progress ↔ t.status = "in_progress")
    ∧ (t ∈ (groupedTasks tasks).completed ↔ t.status = "completed")
    ∧ (t ∈ (groupedTasks tasks).blocked ↔ t.status = "blocked")
    ∧ List.Sublist (groupedTasks tasks).pending tasks
    ∧ List.Sublist (groupedTasks tasks).in_progress tasks
    ∧ List.Sublist (groupedTasks tasks).completed tasks
    ∧ List.Sublist (groupedTasks tasks).blocked tasks := by
  refine ⟨groupedTasks_lengths tasks hv, ?_, ?_, ?_, ?_,
    List.filter_sublist _, List.filter_sublist _,
    List.filter_sublist _, List.filter_sublist _⟩ <;>
    simp [groupedTasks, List.mem_filter, ht]

/-- Witness for C5 on a concrete two-task board: the sample completed
task lands in the completed group and the group lengths sum to two. -/
theorem tasks_group_by_status_partition_witness :
    (groupedTasks [sampleTask, { sampleTask with status := "pending" }]).pending.length
      + (groupedTasks [sampleTask, { sampleTask with status := "pending" }]).in_progress.length
      + (groupedTasks [sampleTask, { sampleTask with status := "pending" }]).completed.length
      + (groupedTasks [sampleTask, { sampleTask with status := "pending" }]).blocked.length
      = 2
    ∧ (sampleTask
        ∈ (groupedTasks [sampleTask, { sampleTask with status := "pending" }]).completed
        ↔ sampleTask.status = "completed") :=
  ⟨(tasks_group_by_status_partition
      [sampleTask, { sampleTask with status := "pending" }] sampleTask
      (by simp) (by decide)).1,
   (tasks_group_by_status_partition
      [sampleTask, { sampleTask with status := "pending" }] sampleTask
      (by simp) (by decide)).2.2.2.1⟩

theorem completeStep_ok_map {steps steps2 : List OnboardingStep}
    {stepId : String} {now : Nat}
    (h : completeStep steps stepId now = Except.ok steps2) :
    steps2 = steps.map (stepUpdate stepId now) := by
  unfold completeStep at h
  cases hf : steps.find? (fun s => s.stepId == stepId) with
  | none => rw [hf] at h; cases h
  | some s =>
      rw [hf] at h
      by_cases hc : s.completed = true
      · simp [hc] at h
      · simp [hc] at h
        exact h.symm

/-- A concrete onboarding record in which the first step is completed
and the second is not. -/
def sampleSteps : List OnboardingStep :=
  [{ stepId := "identity_verification"
     name := "Identity Verification"
     completed := true
     completedAt := some 1 },
   { stepId := "contract_signing"
     name := "Contract Signing"
     completed := false
     completedAt := none }]

/-- The completed head step of `sampleSteps`. -/
def sampleDoneStep : OnboardingStep :=
  { stepId := "identity_verification"
    name := "Identity Verification"
    completed := true
    completedAt := some 1 }

/-- C7: completing an already-completed onboarding step fails with
`ConflictError` (an explicit failure, not a silent no-op), and a
completed step is immutable under any successful `completeStep`: its
updated image is still present, still completed, and keeps its
identifier — completion is monotonic and cannot be undone. -/
theorem onboarding_step_immutable (steps steps2 : List OnboardingStep)
    (stepId : String) (now : Nat) (x : OnboardingStep)
    (hx : x ∈ steps) (hxc : x.completed = true) :
    (steps.find? (fun u => u.stepId == x.stepId) = some x
      → completeStep steps x.stepId now = Except.error OpError.Conflict)
    ∧ (completeStep steps stepId now = Except.ok steps2
        → stepUpdate stepId now x ∈ steps2
          ∧ (stepUpdate stepId now x).completed = true
          ∧ (stepUpdate stepId now x).stepId = x.stepId) := by
  constructor
  · intro hfind
    simp [completeStep, hfind, hxc]
  · intro h
    have h2 := completeStep_ok_map h
    subst h2
    refine ⟨List.mem_map_of_mem _ hx, ?_, ?_⟩
    · unfold stepUpdate
      split <;> simp [hxc]
    · unfold stepUpdate
      split <;> rfl

/-- Witness for C7: re-completing the already-completed head step of
`sampleSteps` fails with a conflict, and after completing the second
step the head step is still present and completed. -/
theorem onboarding_step_immutable_witness :
    completeStep sampleSteps sampleDoneStep.stepId 3
        = Except.error OpError.Conflict
    ∧ (stepUpdate "contract_signing" 9 sampleDoneStep
          ∈ sampleSteps.map (stepUpdate "contract_signing" 9)
        ∧ (stepUpdate "contract_signing" 9 sampleDoneStep).completed = true) := by
  have h1 := (onboarding_step_immutable sampleSteps
    (sampleSteps.map (stepUpdate "contract_signing" 9)) "contract_signing" 3
    sampleDoneStep (by decide) rfl).1 rfl
  have h2 := (onboarding_step_immutable sampleSteps
    (sampleSteps.map (stepUpdate "contract_signing" 9)) "contract_signing" 9
    sampleDoneStep (by decide) rfl).2 rfl
  exact ⟨h1, h2.1, h2.2.1⟩

theorem completedCount_le_length (steps : List OnboardingStep) :
    completedCount steps ≤ steps.length :=
  List.length_filter_le _ _

theorem completedCount_le_update (steps : List OnboardingStep)
    (stepId : String) (now : Nat) :
    completedCount steps ≤ completedCount (steps.map (stepUpdate stepId now)) := by
  unfold completedCount
  rw [← List.countP_eq_length_filter, ← List.countP_eq_length_filter,
    List.countP_map]
  apply List.countP_mono_left
  intro x _ hx
  unfold stepUpdate
  simp only [Function.comp]
  split <;> simp_all

theorem allComplete_iff_count (steps : List OnboardingStep) :
    allComplete steps = true ↔ completedCount steps = steps.length := by
  unfold allComplete completedCount
  rw [← List.countP_eq_length_filter]
  simp

theorem progressFormula_le_100 (c t : Nat) (hct : c ≤ t) :
    (200 * c + t) / (2 * t) ≤ 100 := by
  rcases Nat.eq_zero_or_pos t with h0 | h0
  · subst h0
    simp
  · have h1 : 200 * c + t ≤ t + 2 * t * 100 := by omega
    calc (200 * c + t) / (2 * t) ≤ (t + 2 * t * 100) / (2 * t) :=
          Nat.div_le_div_right h1
      _ = t / (2 * t) + 100 := Nat.add_mul_div_left t 100 (by omega)
      _ = 100 := by rw [Nat.div_eq_of_lt (by omega)]

theorem progressFormula_eq_100_iff (c t : Nat) (h0 : 0 < t) (h199 : t < 200)
    (hct : c ≤ t) : (200 * c + t) / (2 * t) = 100 ↔ c = t := by
  constructor
  · intro h
    by_contra hne
    have hlt : c < t := lt_of_le_of_ne hct hne
    have : (200 * c + t) / (2 * t) < 100 := by
      rw [Nat.div_lt_iff_lt_mul (by omega)]
      omega
    omega
  · intro h
    subst h
    have h2 : 200 * c + c = c + 2 * c * 100 := by ring
    rw [h2, Nat.add_mul_div_left c 100 (by omega),
      Nat.div_eq_of_lt (by omega)]

theorem progress_round_nat (c t : Nat) (ht : 0 < t) :
    (((200 * c + t) / (2 * t) : Nat) : ℤ) = round ((100 * c : ℚ) / (t : ℚ)) := by
  have ht' : (t : ℚ) ≠ 0 := Nat.cast_ne_zero.mpr ht.ne'
  have hx : (100 * c : ℚ) / (t : ℚ) + 1 / 2
      = ((200 * c + t : ℕ) : ℚ) / ((2 * t : ℕ) : ℚ) := by
    push_cast
    field_simp
    ring
  have hpos : (0 : ℚ) ≤ ((200 * c + t : ℕ) : ℚ) / ((2 * t : ℕ) : ℚ) := by
    positivity
  rw [round_eq, hx, ← Int.natCast_floor_eq_floor hpos,
    Nat.floor_div_eq_div]

/-- A concrete five-step onboarding record with the first two steps
completed. -/
def sampleOnboarding : List OnboardingStep :=
  [{ stepId := "identity_verification", name := "Identity Verification",
     completed := true, completedAt := some 1 },
   { stepId := "contract_signing", name := "Contract Signing",
     completed := true, completedAt := some 2 },
   { stepId := "persona_setup", name := "Persona Setup",
     completed := false, completedAt := none },
   { stepId := "safety_briefing", name := "Safety Briefing",
     completed := false, completedAt := none },
   { stepId := "platform_access", name := "Platform Access",
     completed := false, completedAt := none }]

/-- C6: onboarding progress is `round(100 × completedCount /
totalSteps)` (proved against the rational rounding), is monotonically
non-decreasing across `completeStep`, never exceeds 100, equals exactly
100 if and only if every step is completed, and the transactional
`completeStep` returns the talent's `onboarding_complete` flag computed
as all-steps-complete together with the updated record in the same
atomic result. -/
theorem onboarding_progress_spec (steps steps2 : List OnboardingStep)
    (stepId : String) (now : Nat)
    (h0 : 0 < steps.length) (h199 : steps.length < 200)
    (h : completeStep steps stepId now = Except.ok steps2) :
    steps2.length = steps.length
    ∧ progressPct steps ≤ progressPct steps2
    ∧ progressPct steps2 ≤ 100
    ∧ (progressPct steps = 100 ↔ allComplete steps = true)
    ∧ (progressPct steps2 = 100 ↔ allComplete steps2 = true)
    ∧ completeStepTx steps stepId now = Except.ok (steps2, allComplete steps2)
    ∧ (progressPct steps2 : ℤ)
        = round ((100 * completedCount steps2 : ℚ) / (steps2.length : ℚ)) := by
  have hmap := completeStep_ok_map h
  have hlen : steps2.length = steps.length := by
    rw [hmap, List.length_map]
  have hcc : completedCount steps ≤ completedCount steps2 := by
    rw [hmap]
    exact completedCount_le_update steps stepId now
  have h0' : 0 < steps2.length := hlen ▸ h0
  have h199' : steps2.length < 200 := hlen ▸ h199
  refine ⟨hlen, ?_, ?_, ?_, ?_, ?_, ?_⟩
  · unfold progressPct
    rw [hlen]
    exact Nat.div_le_div_right (by omega)
  · exact progressFormula_le_100 _ _ (completedCount_le_length steps2)
  · rw [allComplete_iff_count]
    exact progressFormula_eq_100_iff _ _ h0 h199 (completedCount_le_length steps)
  · rw [allComplete_iff_count]
    exact progressFormula_eq_100_iff _ _ h0' h199' (completedCount_le_length steps2)
  · unfold completeStepTx
    rw [h]
  · exact progress_round_nat (completedCount steps2) steps2.length h0'

/-- Witness for C6, the spec scenario at three of five steps: completing
the third step of the sample record raises progress from 40 to 60 and
the record is not yet complete, while completing every remaining step
drives progress to exactly 100 with the `onboarding_complete` flag
returned true. -/
theorem onboarding_progress_spec_witness :
    progressPct sampleOnboarding
        ≤ progressPct (sampleOnboarding.map (stepUpdate "persona_setup" 3))
    ∧ completeStepTx sampleOnboarding "persona_setup" 3
        = Except.ok (sampleOnboarding.map (stepUpdate "persona_setup" 3),
            allComplete (sampleOnboarding.map (stepUpdate "persona_setup" 3)))
    ∧ (progressPct (sampleOnboarding.map (stepUpdate "persona_setup" 3)) = 100
        ↔ allComplete (sampleOnboarding.map (stepUpdate "persona_setup" 3)) = true) := by
  have hmain := onboarding_progress_spec sampleOnboarding
    (sampleOnboarding.map (stepUpdate "persona_setup" 3)) "persona_setup" 3
    (by decide) (by decide) rfl
  exact ⟨hmain.2.1, hmain.2.2.2.2.2.1, hmain.2.2.2.2.1⟩

end CreatorOS
